import Mathlib

/-!
Shallow embedding of SysClean's task-execution pipeline
(src/models.py, src/cleaner.py, src/scanner.py).

Modelling conventions:
* Machine state that the code only reads or writes through the OS
  (filesystem contents, subprocess results, exceptions raised by
  strategies) is supplied as an explicit environment argument.
* Wall-clock measurements (time.perf_counter differences,
  datetime timestamps) are supplied as arguments: the code stores them
  verbatim, so the embedding passes them through unchanged.  Log-row
  fields that hold only wall-clock data (timestamp, duration_ms) are
  elided from the row model, since no verified property mentions them.
* Python exceptions caught by the engine are data (`DeleteOutcome.fault`,
  `ScanOutcome.fault` carrying str(exc) / traceback text); the embedded
  functions are total, which models the engine's guarantee that no
  exception crosses its boundary.
* The background worker threads in cleaner.py/scanner.py run exactly one
  unit of work each while the calling thread only polls `is_alive` and
  repaints progress; the value semantics are those of a sequential loop,
  which is how they are embedded here.
-/

/-- models.py RiskLevel enum. -/
inductive RiskLevel where
  | safe
  | low
  | medium
  | registry
deriving DecidableEq, Repr

/-- models.py ItemType enum. -/
inductive ItemType where
  | file
  | directory
  | registry_key
  | command
deriving DecidableEq, Repr

/-- models.py ItemType.value (the lowercase token written to the log). -/
def ItemType.value : ItemType → String
  | .file => "file"
  | .directory => "directory"
  | .registry_key => "registry_key"
  | .command => "command"

/-- models.py CleanupItem dataclass. -/
structure CleanupItem where
  path : String
  size : Nat
  category : String
  risk : RiskLevel
  item_type : ItemType
  description : String := ""
  selected : Bool := true
deriving DecidableEq, Repr

/-- models.py CleanupCategory dataclass.  `scan_duration_s` holds a
wall-clock measurement, kept as `Float` exactly as stored. -/
structure CleanupCategory where
  name : String
  description : String
  risk : RiskLevel
  items : List CleanupItem := []
  enabled : Bool := true
  scan_error : Option String := none
  scan_duration_s : Float := 0.0

/-- models.py CleanupCategory.total_size property. -/
def CleanupCategory.total_size (c : CleanupCategory) : Nat :=
  (c.items.map (fun item => item.size)).sum

/-- models.py CleanupCategory.selected_size property. -/
def CleanupCategory.selected_size (c : CleanupCategory) : Nat :=
  ((c.items.filter (fun item => item.selected)).map (fun item => item.size)).sum

/-- models.py CleanupCategory.item_count property. -/
def CleanupCategory.item_count (c : CleanupCategory) : Nat :=
  c.items.length

/-- models.py CleanupCategory.selected_count property. -/
def CleanupCategory.selected_count (c : CleanupCategory) : Nat :=
  c.items.countP (fun item => item.selected)

/-- models.py ScanResult dataclass. -/
structure ScanResult where
  categories : List CleanupCategory := []
  total_scan_duration_s : Float := 0.0

/-- models.py ScanResult.total_items property. -/
def ScanResult.total_items (r : ScanResult) : Nat :=
  (r.categories.map (fun c => c.item_count)).sum

/-- models.py ScanResult.selected_items property. -/
def ScanResult.selected_items (r : ScanResult) : Nat :=
  (r.categories.map (fun c => c.selected_count)).sum

/-- models.py ScanResult.total_size property. -/
def ScanResult.total_size (r : ScanResult) : Nat :=
  (r.categories.map (fun c => c.total_size)).sum

/-!  Deletion engine (src/cleaner.py `clean`). -/

/-- Outcome of one call to an item's delete strategy inside the worker
closure `_do_delete` (cleaner.py lines 78-90): the strategy either
returned a Bool, or raised an exception whose str() is `msg` (caught at
line 88 and stored as `result_holder["err"]`). -/
inductive DeleteOutcome where
  | ok (returned : Bool)
  | fault (msg : String)
deriving DecidableEq, Repr

/-- One row of the deletion log CSV (cleaner.py lines 123-132).
The wall-clock-only fields `timestamp` and `duration_ms` are elided. -/
structure LogRow where
  path : String
  type : String
  category : String
  size_bytes : Nat
  status : String
  error : String
deriving DecidableEq, Repr

/-- The observable outcome of one `clean` run: the returned 5-tuple
(deleted_count, failed_count, bytes_freed, log_path, duration_s), the
rows handed to `_write_log`, and the trace of items whose delete
strategy was invoked (one worker per loop iteration). -/
structure CleanOutcome where
  deleted : Nat
  failed : Nat
  freed : Nat
  log_path : String
  duration_s : Float
  log_rows : List LogRow
  attempted : List CleanupItem

/-- cleaner.py lines 37-41: the selected-item collection loop
`for cat in result.categories: for item in cat.items: if item.selected`. -/
def collectSelected (result : ScanResult) : List CleanupItem :=
  result.categories.flatMap (fun cat => cat.items.filter (fun item => item.selected))

/-- One iteration of the deletion loop (cleaner.py lines 69-136) acting
on the accumulated outcome.  `strategy item` is the environment's answer
for this item's `_do_delete` dispatch. -/
def cleanStep (strategy : CleanupItem → DeleteOutcome) (acc : CleanOutcome)
    (item : CleanupItem) : CleanOutcome :=
  let outcome := strategy item
  let success := match outcome with
    | .ok returned => returned
    | .fault _ => false
  let rawErr := match outcome with
    | .ok _ => ""
    | .fault msg => msg
  if success then
    { acc with
      deleted := acc.deleted + 1
      freed := acc.freed + item.size
      log_rows := acc.log_rows ++
        [⟨item.path, item.item_type.value, item.category, item.size, "deleted", rawErr⟩]
      attempted := acc.attempted ++ [item] }
  else
    let errorMsg := if rawErr = "" then "Delete returned False" else rawErr
    { acc with
      failed := acc.failed + 1
      log_rows := acc.log_rows ++
        [⟨item.path, item.item_type.value, item.category, item.size, "failed", errorMsg⟩]
      attempted := acc.attempted ++ [item] }

/-- cleaner.py `clean`.  `timestamp` is the datetime-now string formatted
at line 47 and `elapsedS` the final perf-counter difference (line 138);
both are wall-clock inputs passed through.  `strategy` is the
environment: what each item's delete strategy does in this run. -/
def clean (strategy : CleanupItem → DeleteOutcome) (log_dir : String)
    (timestamp : String) (elapsedS : Float) (result : ScanResult) : CleanOutcome :=
  let items := collectSelected result
  if items.isEmpty then
    ⟨0, 0, 0, "", 0.0, [], []⟩
  else
    let logPath := log_dir ++ "/cleanup_log_" ++ timestamp ++ ".csv"
    items.foldl (cleanStep strategy) ⟨0, 0, 0, logPath, elapsedS, [], []⟩

/-!  Delete strategies (src/cleaner.py `_delete_file`, `_delete_directory`,
`_run_cleanup_command`). -/

/-- Kind of filesystem object present at a path (the distinction
`os.path.isfile` / `os.path.isdir` draws). -/
inductive NodeKind where
  | file
  | directory
deriving DecidableEq, Repr

/-- The filesystem as the strategies observe and mutate it.  `node` maps
each path to what exists there (`none` when nothing does).  The remaining
fields are the OS environment's answers for the strategies' fallible
syscalls in this run: whether `os.chmod`/`os.remove` raise
OSError/PermissionError on the path (cleaner.py lines 152-156), whether
`shutil.rmtree` raises despite the `_on_rm_error` handler (lines 165-168),
and whether `os.path.exists` still reports the path after `rmtree`
returns (line 166).  Descendant-entry bookkeeping for a removed directory
tree is elided: `rmtree` is external OS behaviour and no verified
property inspects entries below the root path. -/
structure FileSystem where
  node : String → Option NodeKind
  removeRaises : String → Bool
  rmtreeRaises : String → Bool
  rmtreeResidue : String → Bool

/-- os.path.isfile. -/
def FileSystem.isfile (fs : FileSystem) (path : String) : Bool :=
  fs.node path == some NodeKind.file

/-- os.path.isdir. -/
def FileSystem.isdir (fs : FileSystem) (path : String) : Bool :=
  fs.node path == some NodeKind.directory

/-- cleaner.py `_delete_file` (lines 146-156), returning the strategy's
Bool together with the filesystem after the call. -/
def _delete_file (fs : FileSystem) (path : String) : Bool × FileSystem :=
  if ¬ fs.isfile path then
    (true, fs)
  else if fs.removeRaises path then
    (false, fs)
  else
    (true, { fs with node := fun q => if q == path then none else fs.node q })

/-- cleaner.py `_delete_directory` (lines 159-168): absent is success;
`rmtree` raising despite the handler is failure; otherwise the returned
Bool is `not os.path.exists(path)` after the `rmtree` attempt. -/
def _delete_directory (fs : FileSystem) (path : String) : Bool × FileSystem :=
  if ¬ fs.isdir path then
    (true, fs)
  else if fs.rmtreeRaises path then
    (false, fs)
  else if fs.rmtreeResidue path then
    (false, fs)
  else
    (true, { fs with node := fun q => if q == path then none else fs.node q })

/-- Outcome of the `subprocess.run` call in `_run_cleanup_command`: the
process exited with a status code, the 600-second ceiling expired
(subprocess.TimeoutExpired), or the spawn itself failed
(OSError/PermissionError). -/
inductive ProcOutcome where
  | exited (code : Int)
  | timedOut
  | spawnFailed
deriving DecidableEq, Repr

/-- The timeout passed to subprocess.run (cleaner.py line 189). -/
def commandTimeoutS : Nat := 600

/-- cleaner.py `_run_cleanup_command` (lines 180-193).  `run cmd t` is
the environment: what `subprocess.run(cmd, shell=True, timeout=t)` does
in this run.  The function is total: a timeout or spawn failure becomes
`false`, never a hang or an escaping exception. -/
def _run_cleanup_command (run : String → Nat → ProcOutcome) (command : String) : Bool :=
  match run command commandTimeoutS with
  | .exited code => code == 0
  | .timedOut => false
  | .spawnFailed => false

/-!  Scan orchestrator (src/scanner.py `scan_all`). -/

/-- Outcome of one call to `rule_module.scan()` inside `_run_rule`
(scanner.py lines 89-95): either it returned (None or a category), or it
raised and `traceback.format_exc()` produced `trace`. -/
inductive ScanOutcome where
  | ok (category : Option CleanupCategory)
  | fault (trace : String)

/-- One discovery-rule module as `scan_all` consumes it.  `scanOutcome`
is the environment's answer for this run's `scan()` call, and `elapsedS`
the wall-clock `rule_duration` measured around it (lines 85, 110). -/
structure RuleModule where
  name : String
  display_name : String
  description : String
  risk : RiskLevel
  scanOutcome : ScanOutcome
  elapsedS : Float

/-- The Category synthesized for a faulting rule
(scanner.py lines 113-119). -/
def errorCategory (rule : RuleModule) (trace : String) : CleanupCategory :=
  { name := rule.display_name
    description := rule.description
    risk := rule.risk
    scan_error := some trace
    scan_duration_s := rule.elapsedS }

/-- The categories one loop iteration appends for `rule`
(scanner.py lines 112-130): the error category on fault; on success the
returned category stamped with its duration, kept only when it has at
least one item; nothing when `scan()` returned None. -/
def ruleCategories (rule : RuleModule) : List CleanupCategory :=
  match rule.scanOutcome with
  | .fault trace => [errorCategory rule trace]
  | .ok none => []
  | .ok (some category) =>
      let stamped := { category with scan_duration_s := rule.elapsedS }
      if stamped.item_count > 0 then [stamped] else []

/-- scanner.py `scan_all` (lines 46-136).  `include_registry` and
`profile_rules` select the rules to run (lines 64-67); `allRules` plays
ALL_RULES; `totalElapsedS` is the wall-clock total measured at line 132.
Categories are appended in rule order. -/
def scan_all (include_registry : Bool) (profile_rules : Option (List String))
    (totalElapsedS : Float) (allRules : List RuleModule) : ScanResult :=
  let rules := match profile_rules with
    | some profile => allRules.filter (fun (r : RuleModule) => profile.contains r.name)
    | none => allRules.filter (fun r => include_registry || r.name != "registry")
  { categories := rules.flatMap ruleCategories
    total_scan_duration_s := totalElapsedS }

/-!  Derived notions used to state the verified properties. -/

/-- The log row one loop iteration produces for `item` (a restatement of
the per-branch row construction in `cleanStep`, convenient for indexing
into the row list). -/
def logRowFor (strategy : CleanupItem → DeleteOutcome) (item : CleanupItem) : LogRow :=
  match strategy item with
  | .ok true =>
      ⟨item.path, item.item_type.value, item.category, item.size, "deleted", ""⟩
  | .ok false =>
      ⟨item.path, item.item_type.value, item.category, item.size, "failed",
        "Delete returned False"⟩
  | .fault msg =>
      ⟨item.path, item.item_type.value, item.category, item.size, "failed",
        if msg = "" then "Delete returned False" else msg⟩

/-- Sum of `size_bytes` over the log rows whose recorded status is
"deleted". -/
def deletedBytes (rows : List LogRow) : Nat :=
  ((rows.filter (fun row => row.status == "deleted")).map (fun row => row.size_bytes)).sum

/-!  Concrete fixtures used by witness and counterexample theorems. -/

/-- A selected 64-byte file item. -/
def wItem : CleanupItem := ⟨"/tmp/w", 64, "W", .safe, .file, "", true⟩

/-- A scan result holding exactly `wItem`. -/
def wResult : ScanResult := ⟨[⟨"W", "w", .safe, [wItem], true, none, 0.0⟩], 0.0⟩

/-- A scan result whose only item is not selected. -/
def wUnselected : ScanResult :=
  ⟨[⟨"W", "w", .safe, [⟨"/tmp/u", 64, "W", .safe, .file, "", false⟩], true, none, 0.0⟩], 0.0⟩

/-- A strategy that raises with message "boom" on every item. -/
def wFaultStrategy : CleanupItem → DeleteOutcome := fun _ => .fault "boom"

/-- A discovery rule whose scan raises (traceback text "tilt"). -/
def wFaultRule : RuleModule := ⟨"b", "B", "broken rule", .safe, .fault "tilt", 0.5⟩

/-- A filesystem with nothing on it. -/
def absentFS : FileSystem := ⟨fun _ => none, fun _ => false, fun _ => false, fun _ => false⟩

/-- A filesystem holding a directory at "/d" and a regular file at "/f". -/
def kindFS : FileSystem :=
  ⟨fun p => if p == "/d" then some NodeKind.directory
            else if p == "/f" then some NodeKind.file else none,
   fun _ => false, fun _ => false, fun _ => false⟩

/-- Scenario task A: returns two items of sizes 100 and 200 bytes. -/
def catA : CleanupCategory :=
  ⟨"A", "rule A", .safe,
   [⟨"/a/1", 100, "A", .safe, .file, "", true⟩,
    ⟨"/a/2", 200, "A", .safe, .file, "", true⟩], true, none, 0.0⟩

/-- Scenario rule A (succeeds with `catA`). -/
def ruleA : RuleModule := ⟨"a", "A", "rule A", .safe, .ok (some catA), 0.5⟩

/-- Scenario rule B (raises; traceback text "boom"). -/
def ruleB : RuleModule := ⟨"b", "B", "rule B", .safe, .fault "boom", 0.25⟩

/-- Scenario rule C (succeeds with a zero-item category). -/
def ruleC : RuleModule :=
  ⟨"c", "C", "rule C", .safe, .ok (some ⟨"C", "rule C", .safe, [], true, none, 0.0⟩), 0.125⟩

/-!  Helper lemmas about one iteration of the deletion loop. -/

lemma cleanStep_attempted (s : CleanupItem → DeleteOutcome) (acc : CleanOutcome)
    (item : CleanupItem) :
    (cleanStep s acc item).attempted = acc.attempted ++ [item] := by
  cases h : s item with
  | ok returned => cases returned <;> simp [cleanStep, h]
  | fault msg => simp [cleanStep, h]

lemma cleanStep_log_rows (s : CleanupItem → DeleteOutcome) (acc : CleanOutcome)
    (item : CleanupItem) :
    (cleanStep s acc item).log_rows = acc.log_rows ++ [logRowFor s item] := by
  cases h : s item with
  | ok returned => cases returned <;> simp [cleanStep, logRowFor, h]
  | fault msg => simp [cleanStep, logRowFor, h]

lemma cleanStep_counts (s : CleanupItem → DeleteOutcome) (acc : CleanOutcome)
    (item : CleanupItem) :
    (cleanStep s acc item).deleted + (cleanStep s acc item).failed
      = acc.deleted + acc.failed + 1 := by
  cases h : s item with
  | ok returned => cases returned <;> simp [cleanStep, h] <;> omega
  | fault msg => simp [cleanStep, h]; omega

lemma cleanStep_freed (s : CleanupItem → DeleteOutcome) (acc : CleanOutcome)
    (item : CleanupItem) :
    (cleanStep s acc item).freed
      = acc.freed + (if (logRowFor s item).status == "deleted" then item.size else 0) := by
  cases h : s item with
  | ok returned => cases returned <;> simp [cleanStep, logRowFor, h]
  | fault msg => simp [cleanStep, logRowFor, h]

lemma cleanStep_log_path (s : CleanupItem → DeleteOutcome) (acc : CleanOutcome)
    (item : CleanupItem) :
    (cleanStep s acc item).log_path = acc.log_path := by
  cases h : s item with
  | ok returned => cases returned <;> simp [cleanStep, h]
  | fault msg => simp [cleanStep, h]

lemma logRowFor_size_bytes (s : CleanupItem → DeleteOutcome) (item : CleanupItem) :
    (logRowFor s item).size_bytes = item.size := by
  cases h : s item with
  | ok returned => cases returned <;> simp [logRowFor, h]
  | fault msg => simp [logRowFor, h]

lemma deletedBytes_append (r₁ r₂ : List LogRow) :
    deletedBytes (r₁ ++ r₂) = deletedBytes r₁ + deletedBytes r₂ := by
  simp [deletedBytes, List.filter_append]

lemma deletedBytes_single (row : LogRow) :
    deletedBytes [row] = if row.status == "deleted" then row.size_bytes else 0 := by
  simp [deletedBytes, List.filter_cons]
  split <;> simp

/-!  Helper lemmas about the whole deletion loop. -/

lemma foldl_cleanStep_counts (s : CleanupItem → DeleteOutcome) (l : List CleanupItem)
    (acc : CleanOutcome) :
    (l.foldl (cleanStep s) acc).deleted + (l.foldl (cleanStep s) acc).failed
      = acc.deleted + acc.failed + l.length := by
  induction l generalizing acc with
  | nil => simp
  | cons item l ih =>
      simp only [List.foldl_cons, ih, cleanStep_counts, List.length_cons]
      omega

lemma foldl_cleanStep_attempted (s : CleanupItem → DeleteOutcome) (l : List CleanupItem)
    (acc : CleanOutcome) :
    (l.foldl (cleanStep s) acc).attempted = acc.attempted ++ l := by
  induction l generalizing acc with
  | nil => simp
  | cons item l ih => simp [List.foldl_cons, ih, cleanStep_attempted]

lemma foldl_cleanStep_log_rows (s : CleanupItem → DeleteOutcome) (l : List CleanupItem)
    (acc : CleanOutcome) :
    (l.foldl (cleanStep s) acc).log_rows = acc.log_rows ++ l.map (logRowFor s) := by
  induction l generalizing acc with
  | nil => simp
  | cons item l ih => simp [List.foldl_cons, ih, cleanStep_log_rows]

lemma foldl_cleanStep_freed (s : CleanupItem → DeleteOutcome) (l : List CleanupItem)
    (acc : CleanOutcome) :
    (l.foldl (cleanStep s) acc).freed = acc.freed + deletedBytes (l.map (logRowFor s)) := by
  induction l generalizing acc with
  | nil => simp [deletedBytes]
  | cons item l ih =>
      rw [List.foldl_cons, ih, cleanStep_freed, List.map_cons,
        show (logRowFor s item :: l.map (logRowFor s))
            = [logRowFor s item] ++ l.map (logRowFor s) from rfl,
        deletedBytes_append, deletedBytes_single, logRowFor_size_bytes]
      omega

lemma foldl_cleanStep_log_path (s : CleanupItem → DeleteOutcome) (l : List CleanupItem)
    (acc : CleanOutcome) :
    (l.foldl (cleanStep s) acc).log_path = acc.log_path := by
  induction l generalizing acc with
  | nil => rfl
  | cons item l ih => rw [List.foldl_cons, ih, cleanStep_log_path]

/-!  Helper lemmas about `clean` and `collectSelected`. -/

lemma collectSelected_length (r : ScanResult) :
    (collectSelected r).length = r.selected_items := by
  simp only [collectSelected, ScanResult.selected_items, List.length_flatMap,
    CleanupCategory.selected_count, List.countP_eq_length_filter]
  rfl

lemma collectSelected_eq_filter (r : ScanResult) :
    collectSelected r
      = (r.categories.flatMap (fun c => c.items)).filter (fun item => item.selected) := by
  simp [collectSelected, List.filter_flatMap]

lemma clean_of_empty (s : CleanupItem → DeleteOutcome) (d ts : String) (e : Float)
    (r : ScanResult) (h : collectSelected r = []) :
    clean s d ts e r = ⟨0, 0, 0, "", 0.0, [], []⟩ := by
  simp [clean, h]

lemma clean_of_nonempty (s : CleanupItem → DeleteOutcome) (d ts : String) (e : Float)
    (r : ScanResult) (h : ¬ collectSelected r = []) :
    clean s d ts e r
      = (collectSelected r).foldl (cleanStep s)
          ⟨0, 0, 0, d ++ "/cleanup_log_" ++ ts ++ ".csv", e, [], []⟩ := by
  simp [clean, List.isEmpty_iff, h]

lemma clean_attempted (s : CleanupItem → DeleteOutcome) (d ts : String) (e : Float)
    (r : ScanResult) :
    (clean s d ts e r).attempted = collectSelected r := by
  by_cases h : collectSelected r = []
  · rw [clean_of_empty s d ts e r h, h]
  · rw [clean_of_nonempty s d ts e r h, foldl_cleanStep_attempted]
    rfl

lemma clean_log_rows (s : CleanupItem → DeleteOutcome) (d ts : String) (e : Float)
    (r : ScanResult) :
    (clean s d ts e r).log_rows = (collectSelected r).map (logRowFor s) := by
  by_cases h : collectSelected r = []
  · rw [clean_of_empty s d ts e r h, h]
    rfl
  · rw [clean_of_nonempty s d ts e r h, foldl_cleanStep_log_rows]
    rfl

lemma clean_of_collectSelected_eq (s : CleanupItem → DeleteOutcome) (d ts : String)
    (e : Float) (r₁ r₂ : ScanResult) (h : collectSelected r₁ = collectSelected r₂) :
    clean s d ts e r₁ = clean s d ts e r₂ := by
  unfold clean
  rw [h]

/-!  Helper lemma about the scan orchestrator. -/

lemma scan_all_true_none (t : Float) (rules : List RuleModule) :
    scan_all true none t rules = ⟨rules.flatMap ruleCategories, t⟩ := by
  simp [scan_all]

/-!  Claim theorems. -/

/-- C1: for every run of the deletion engine `clean` over a ScanResult,
the returned deleted_count plus failed_count equals the number of items
with `selected == True` across all categories: every selected item is
attempted exactly once and contributes to exactly one of the two
counters. -/
theorem clean_deleted_plus_failed_eq_selected (s : CleanupItem → DeleteOutcome)
    (d ts : String) (e : Float) (r : ScanResult) :
    (clean s d ts e r).deleted + (clean s d ts e r).failed = r.selected_items
      ∧ (clean s d ts e r).attempted = collectSelected r := by
  refine ⟨?_, clean_attempted s d ts e r⟩
  by_cases h : collectSelected r = []
  · rw [clean_of_empty s d ts e r h, ← collectSelected_length, h]
    rfl
  · rw [clean_of_nonempty s d ts e r h, foldl_cleanStep_counts, ← collectSelected_length]
    simp

/-- C2: for every run of `clean`, the returned bytes_freed equals the sum
of the `size` field over exactly the attempted items whose status is
recorded as deleted; an item whose deletion fails contributes 0 to
bytes_freed even when its size is nonzero. -/
theorem clean_bytes_freed_eq_deleted_rows (s : CleanupItem → DeleteOutcome)
    (d ts : String) (e : Float) (r : ScanResult) :
    (clean s d ts e r).freed = deletedBytes (clean s d ts e r).log_rows := by
  by_cases h : collectSelected r = []
  · rw [clean_of_empty s d ts e r h]
    rfl
  · rw [clean_of_nonempty s d ts e r h, foldl_cleanStep_freed, foldl_cleanStep_log_rows]
    simp [deletedBytes]

/-- C3: for every list of discovery tasks, if a task's scan raises then
`scan_all` appends a Category whose scan_error is set to the fault detail
and whose items list is empty, records its elapsed duration, and still
runs every subsequent task (the categories of the rules before and after
it appear unchanged around it); a task fault never aborts the scan. -/
theorem scan_all_fault_isolated (t : Float) (pre post : List RuleModule)
    (rule : RuleModule) (trace : String)
    (h : rule.scanOutcome = ScanOutcome.fault trace) :
    (scan_all true none t (pre ++ rule :: post)).categories
        = (scan_all true none t pre).categories
          ++ errorCategory rule trace :: (scan_all true none t post).categories
      ∧ (errorCategory rule trace).scan_error = some trace
      ∧ (errorCategory rule trace).items = []
      ∧ (errorCategory rule trace).scan_duration_s = rule.elapsedS := by
  refine ⟨?_, rfl, rfl, rfl⟩
  simp [scan_all_true_none, ruleCategories, h]

/-- Witness for C3: one faulting rule between two empty stretches. -/
theorem scan_all_fault_isolated_witness :
    wFaultRule.scanOutcome = ScanOutcome.fault "tilt"
      ∧ ((scan_all true none 3.0 ([] ++ wFaultRule :: [])).categories
            = (scan_all true none 3.0 []).categories
              ++ errorCategory wFaultRule "tilt" :: (scan_all true none 3.0 []).categories
          ∧ (errorCategory wFaultRule "tilt").scan_error = some "tilt"
          ∧ (errorCategory wFaultRule "tilt").items = []
          ∧ (errorCategory wFaultRule "tilt").scan_duration_s = wFaultRule.elapsedS) :=
  ⟨rfl, scan_all_fault_isolated 3.0 [] [] wFaultRule "tilt" rfl⟩

/-- C4 (amended): for every selected item, an exception raised inside the
item's delete strategy is caught at the worker boundary and converted
into a failure record; when the exception's message is nonempty that
message is the record's error text (an empty message is replaced by the
placeholder "Delete returned False").  It never propagates out of `clean`
— the engine still logs one row per selected item and attempts every
selected item. -/
theorem clean_fault_downgraded_to_failure_row (s : CleanupItem → DeleteOutcome)
    (d ts : String) (e : Float) (r : ScanResult) :
    (clean s d ts e r).log_rows.length = (collectSelected r).length
      ∧ (clean s d ts e r).attempted = collectSelected r
      ∧ ∀ (i : Nat) (item : CleanupItem) (msg : String),
          (collectSelected r)[i]? = some item →
          s item = DeleteOutcome.fault msg → msg ≠ "" →
          (clean s d ts e r).log_rows[i]?
            = some ⟨item.path, item.item_type.value, item.category, item.size,
                "failed", msg⟩ := by
  refine ⟨by rw [clean_log_rows]; simp, clean_attempted s d ts e r, ?_⟩
  intro i item msg hi hs hmsg
  rw [clean_log_rows, List.getElem?_map, hi]
  simp [logRowFor, hs, hmsg]

/-- Witness for C4: a strategy raising "boom" on the one selected item
yields a failed row carrying "boom". -/
theorem clean_fault_downgraded_witness :
    (collectSelected wResult)[0]? = some wItem
      ∧ wFaultStrategy wItem = DeleteOutcome.fault "boom"
      ∧ (clean wFaultStrategy "." "20240101_000000" 1.0 wResult).log_rows[0]?
          = some ⟨"/tmp/w", "file", "W", 64, "failed", "boom"⟩ :=
  ⟨rfl, rfl,
    (clean_fault_downgraded_to_failure_row wFaultStrategy "." "20240101_000000" 1.0
        wResult).2.2 0 wItem "boom" rfl rfl (by decide)⟩

/-- Counterexample for C4 as stated: an exception whose message is the
empty string is recorded with error text "Delete returned False", not
with the exception's message. -/
theorem clean_empty_fault_message_replaced :
    (fun _ : CleanupItem => DeleteOutcome.fault "") wItem = DeleteOutcome.fault ""
      ∧ ((clean (fun _ => DeleteOutcome.fault "") "." "20240101_000000" 1.0
            wResult).log_rows.map (fun row => row.error)) = ["Delete returned False"]
      ∧ (("Delete returned False" == "") = false) := by
  refine ⟨rfl, ?_, by decide⟩
  rfl

/-- C5: for every path that does not exist on the filesystem, the File
delete strategy and the Directory delete strategy both return success
(treating absence as already-deleted), not failure; neither touches the
filesystem. -/
theorem delete_strategies_absent_path_succeed (fs : FileSystem) (path : String)
    (h : fs.node path = none) :
    (_delete_file fs path).1 = true
      ∧ (_delete_directory fs path).1 = true
      ∧ (_delete_file fs path).2 = fs
      ∧ (_delete_directory fs path).2 = fs := by
  have hf : fs.isfile path = false := by simp [FileSystem.isfile, h]
  have hd : fs.isdir path = false := by simp [FileSystem.isdir, h]
  refine ⟨?_, ?_, ?_, ?_⟩ <;> simp [_delete_file, _delete_directory, hf, hd]

/-- Witness for C5: an empty filesystem and a missing path. -/
theorem delete_strategies_absent_path_witness :
    absentFS.node "C:/Temp/missing.tmp" = none
      ∧ ((_delete_file absentFS "C:/Temp/missing.tmp").1 = true
          ∧ (_delete_directory absentFS "C:/Temp/missing.tmp").1 = true
          ∧ (_delete_file absentFS "C:/Temp/missing.tmp").2 = absentFS
          ∧ (_delete_directory absentFS "C:/Temp/missing.tmp").2 = absentFS) :=
  ⟨rfl, delete_strategies_absent_path_succeed absentFS "C:/Temp/missing.tmp" rfl⟩

/-- C6: for every Command-kind item, the delete strategy runs the stored
shell command with a hard 600-second timeout and returns success exactly
when the process exits with status 0; a timeout or a spawn failure yields
failure (`false`) — the embedded function is total, so it neither hangs
nor lets an exception escape. -/
theorem run_cleanup_command_exit_and_timeout (run : String → Nat → ProcOutcome)
    (command : String) :
    commandTimeoutS = 600
      ∧ (_run_cleanup_command run command = true ↔ run command 600 = ProcOutcome.exited 0)
      ∧ _run_cleanup_command (fun _ _ => ProcOutcome.timedOut) command = false
      ∧ _run_cleanup_command (fun _ _ => ProcOutcome.spawnFailed) command = false := by
  refine ⟨rfl, ?_, rfl, rfl⟩
  cases h : run command 600 with
  | exited code => simp [_run_cleanup_command, commandTimeoutS, h]
  | timedOut => simp [_run_cleanup_command, commandTimeoutS, h]
  | spawnFailed => simp [_run_cleanup_command, commandTimeoutS, h]

/-- Witness for C6: a process exiting 0 yields success, one exiting 1
does not. -/
theorem run_cleanup_command_witness :
    _run_cleanup_command (fun _ _ => ProcOutcome.exited 0) "dism /cleanup" = true
      ∧ _run_cleanup_command (fun _ _ => ProcOutcome.exited 1) "dism /cleanup" = false
      ∧ commandTimeoutS = 600 :=
  ⟨(run_cleanup_command_exit_and_timeout (fun _ _ => ProcOutcome.exited 0)
      "dism /cleanup").2.1.mpr rfl,
   by decide,
   rfl⟩

/-- C7: for every ScanResult in which no item across all categories has
`selected == True`, `clean` returns the zero-valued result — 0 deleted,
0 failed, 0 bytes freed, empty log path, 0.0 duration — with no log rows
and no delete-strategy invocations (no filesystem or log I/O). -/
theorem clean_no_selection_zero_result (s : CleanupItem → DeleteOutcome)
    (d ts : String) (e : Float) (r : ScanResult)
    (h : ∀ c ∈ r.categories, ∀ item ∈ c.items, item.selected = false) :
    clean s d ts e r = ⟨0, 0, 0, "", 0.0, [], []⟩ := by
  apply clean_of_empty
  simp only [collectSelected, List.flatMap_eq_nil_iff]
  intro c hc
  rw [List.filter_eq_nil_iff]
  intro item hi
  simp [h c hc item hi]

/-- Witness for C7: a scan result whose single item is unselected. -/
theorem clean_no_selection_witness :
    (∀ c ∈ wUnselected.categories, ∀ item ∈ c.items, item.selected = false)
      ∧ clean wFaultStrategy "." "20240101_000000" 1.0 wUnselected
          = ⟨0, 0, 0, "", 0.0, [], []⟩ :=
  ⟨by decide,
   clean_no_selection_zero_result wFaultStrategy "." "20240101_000000" 1.0 wUnselected
     (by decide)⟩

/-- C8: scanning exactly three tasks where task A returns two items of
sizes 100 and 200 bytes, task B raises, and task C returns zero items
yields exactly one item-bearing Category — A's, with 2 items totaling
300 bytes — plus B's error category; C is omitted entirely. -/
theorem scan_all_three_task_scenario (t : Float) :
    (scan_all true none t [ruleA, ruleB, ruleC]).categories
        = [{ catA with scan_duration_s := ruleA.elapsedS }, errorCategory ruleB "boom"]
      ∧ ((scan_all true none t [ruleA, ruleB, ruleC]).categories.filter
            (fun c => c.scan_error == none)).map (fun c => c.name) = ["A"]
      ∧ ({ catA with scan_duration_s := ruleA.elapsedS } : CleanupCategory).item_count = 2
      ∧ ({ catA with scan_duration_s := ruleA.elapsedS } : CleanupCategory).total_size = 300
      ∧ (errorCategory ruleB "boom").scan_error = some "boom"
      ∧ (errorCategory ruleB "boom").items = []
      ∧ (scan_all true none t [ruleA, ruleB, ruleC]).categories.all
          (fun c => c.name != "C") = true := by
  refine ⟨?_, ?_, rfl, rfl, rfl, rfl, ?_⟩ <;> rfl

/-- C9: the set of items `clean` attempts to delete is exactly the set of
items whose own `selected` flag is true, regardless of the containing
Category's `enabled` flag or `scan_error` field: rewriting those two
fields arbitrarily on every category changes nothing about the run. -/
theorem clean_attempts_exactly_selected_items (s : CleanupItem → DeleteOutcome)
    (d ts : String) (e : Float) (r : ScanResult) :
    (clean s d ts e r).attempted
        = (r.categories.flatMap (fun c => c.items)).filter (fun item => item.selected)
      ∧ ∀ (en : CleanupCategory → Bool) (se : CleanupCategory → Option String),
          clean s d ts e
              { categories := r.categories.map
                  (fun c => { c with enabled := en c, scan_error := se c })
                total_scan_duration_s := r.total_scan_duration_s }
            = clean s d ts e r := by
  constructor
  · rw [clean_attempted, collectSelected_eq_filter]
  · intro en se
    apply clean_of_collectSelected_eq
    simp [collectSelected, List.flatMap_map]

/-- C10: for every path that exists but has the wrong filesystem kind for
the strategy, the strategy reports success without removing anything:
the File strategy on an existing directory returns true and leaves the
filesystem untouched, and the Directory strategy on an existing regular
file returns true and leaves the filesystem untouched. -/
theorem delete_strategies_wrong_kind_no_op (fs : FileSystem) (path : String) :
    (fs.node path = some NodeKind.directory →
        (_delete_file fs path).1 = true
          ∧ (_delete_file fs path).2 = fs
          ∧ (_delete_file fs path).2.node path = some NodeKind.directory)
      ∧ (fs.node path = some NodeKind.file →
          (_delete_directory fs path).1 = true
            ∧ (_delete_directory fs path).2 = fs
            ∧ (_delete_directory fs path).2.node path = some NodeKind.file) := by
  constructor
  · intro h
    have hf : fs.isfile path = false := by simp [FileSystem.isfile, h]
    refine ⟨?_, ?_, ?_⟩ <;> simp [_delete_file, hf, h]
  · intro h
    have hd : fs.isdir path = false := by simp [FileSystem.isdir, h]
    refine ⟨?_, ?_, ?_⟩ <;> simp [_delete_directory, hd, h]

/-- Witness for C10: a filesystem holding a directory at "/d" and a file
at "/f", each handed to the strategy for the other kind. -/
theorem delete_strategies_wrong_kind_witness :
    (kindFS.node "/d" = some NodeKind.directory
      ∧ (_delete_file kindFS "/d").1 = true
      ∧ (_delete_file kindFS "/d").2 = kindFS
      ∧ (_delete_file kindFS "/d").2.node "/d" = some NodeKind.directory)
    ∧ (kindFS.node "/f" = some NodeKind.file
      ∧ (_delete_directory kindFS "/f").1 = true
      ∧ (_delete_directory kindFS "/f").2 = kindFS
      ∧ (_delete_directory kindFS "/f").2.node "/f" = some NodeKind.file) :=
  ⟨⟨rfl, (delete_strategies_wrong_kind_no_op kindFS "/d").1 rfl⟩,
   ⟨rfl, (delete_strategies_wrong_kind_no_op kindFS "/f").2 rfl⟩⟩
